import Mathlib

/-!
Shallow embedding of the authentication/session subsystem of the
my-fastapi-template repository (src/src/users/service.py,
src/src/users/dependencies.py, src/src/dao.py, src/src/users/models.py,
src/src/users/schemas.py), together with theorems settling the frozen
claims about it.

Modelling conventions:
* UUIDs (user ids, refresh-token values) are modelled as `Nat`.
* Timestamps are seconds since an arbitrary epoch, as `Nat`; the current
  time `now` is passed explicitly to each operation that reads the clock.
* The database is a `State` value: the `user` table, the `refresh_session`
  table, and the autoincrement counter for `refresh_session.id`.
* Each service method is a pure function from the pre-state to
  `Except ServiceError (result × State)`.  An `Except.error` models a
  Python exception escaping the `async with async_session_maker()` block
  before `session.commit()` runs: the transaction rolls back, so the
  caller keeps the pre-state.
* `jwt.encode` (an external library call over the server secret and clock)
  is an opaque parameter `enc : Nat → String` from the subject user id to
  the signed token string; `jwt.decode` is likewise an opaque parameter.
* `uuid.uuid4()` refresh-token generation is modelled by passing the fresh
  random value in explicitly.
* Password hashing/verification (src/src/users/utils.py, not present in
  the source tree; the spec treats it as an opaque verify capability) is
  an opaque parameter.
-/

/-- Typed failures raised by the service layer, plus the untyped Python /
library exceptions that the code can actually raise. -/
inductive ServiceError
  /-- `InvalidTokenException` (HTTP 401 "Invalid token"). -/
  | invalidToken
  /-- `TokenExpiredException` (HTTP 401 "Token has expired"). -/
  | tokenExpired
  /-- `HTTPException(404, "User not found")`. -/
  | notFound
  /-- `HTTPException(403, ...)` from the dependency layer. -/
  | forbidden
  /-- Python `TypeError` (a call missing a required positional argument). -/
  | typeError
  /-- pydantic `ValidationError` (a required model field was not supplied). -/
  | validationError
  /-- SQLAlchemy `MultipleResultsFound` from `.one_or_none()` / `.one()`. -/
  | multipleResults
  /-- SQLAlchemy `NoResultFound` from `.one()` on an empty result. -/
  | noResult
deriving DecidableEq, Repr

/-- Row of the `user` table (src/src/users/models.py, `UserModel`). -/
structure UserModel where
  id : Nat
  email : String
  hashed_password : String
  fio : String
  is_active : Bool
  is_verified : Bool
  is_superuser : Bool
deriving DecidableEq, Repr

/-- Row of the `refresh_session` table (src/src/users/models.py,
`RefreshSessionModel`).  `created_at` is server-assigned at insert
(`server_default=func.now()`); `id` is the autoincrement primary key. -/
structure RefreshSessionModel where
  id : Nat
  refresh_token : Nat
  expires_in : Nat
  created_at : Nat
  user_id : Nat
deriving DecidableEq, Repr

/-- The persistence backend: both tables plus the autoincrement counter
for `refresh_session.id`. -/
structure State where
  users : List UserModel
  sessions : List RefreshSessionModel
  nextSessionId : Nat
deriving DecidableEq, Repr

/-- The relevant fields of `Settings` (src/src/config.py). -/
structure Config where
  refresh_token_expire_days : Nat
  access_token_expire_minutes : Nat
deriving DecidableEq, Repr

/-- `timedelta(days=settings.REFRESH_TOKEN_EXPIRE_DAYS).total_seconds()`. -/
def refreshSeconds (cfg : Config) : Nat :=
  cfg.refresh_token_expire_days * 86400

/-- Outbound token pair (src/src/users/schemas.py, `Token`). -/
structure Token where
  access_token : String
  refresh_token : Nat
  token_type : String
deriving DecidableEq, Repr

/-- `RefreshSessionCreate` (src/src/users/schemas.py). -/
structure RefreshSessionCreate where
  refresh_token : Nat
  expires_in : Nat
  user_id : Nat
deriving DecidableEq, Repr

/-- The dictionary produced by `RefreshSessionUpdate.model_dump(exclude_unset=True)`
inside `BaseDAO.update`: a field is `some v` exactly when it was supplied to the
`RefreshSessionUpdate` constructor (src/src/users/schemas.py: `user_id` is
optional there and is left unset by `AuthService.refresh_token`). -/
structure RSUpdateData where
  refresh_token : Option Nat
  expires_in : Option Nat
  user_id : Option Nat
deriving DecidableEq, Repr

/-- Applying an UPDATE ... SET dict to one `refresh_session` row: only the
columns present in the dict change. -/
def applyRSUpdate (d : RSUpdateData) (r : RefreshSessionModel) : RefreshSessionModel :=
  { r with
    refresh_token := d.refresh_token.getD r.refresh_token,
    expires_in := d.expires_in.getD r.expires_in,
    user_id := d.user_id.getD r.user_id }

/-- `BaseDAO.find_one_or_none` (src/src/dao.py lines 21-25):
`SELECT ... FILTER ...` then `.scalars().one_or_none()`, which returns the
row when exactly one matches, `None` when none does, and raises
`MultipleResultsFound` otherwise. -/
def findOneOrNone {α : Type} (l : List α) (p : α → Bool) : Except ServiceError (Option α) :=
  match l.filter p with
  | [] => .ok none
  | [a] => .ok (some a)
  | _ :: _ :: _ => .error .multipleResults

/-- `RefreshSessionDAO.add` (src/src/dao.py lines 46-69 instantiated at
`RefreshSessionModel`): INSERT with server defaults `id = nextSessionId`
and `created_at = now`. -/
def RefreshSessionDAO_add (st : State) (now : Nat) (c : RefreshSessionCreate) :
    RefreshSessionModel × State :=
  let row : RefreshSessionModel :=
    { id := st.nextSessionId, refresh_token := c.refresh_token,
      expires_in := c.expires_in, created_at := now, user_id := c.user_id }
  (row, { st with sessions := st.sessions ++ [row],
                  nextSessionId := st.nextSessionId + 1 })

/-- `RefreshSessionDAO.update` (src/src/dao.py lines 76-97): UPDATE every
row matching the predicate, RETURNING the updated rows, then
`.scalars().one()` — which raises `NoResultFound` on zero matches and
`MultipleResultsFound` on more than one. -/
def RefreshSessionDAO_update (st : State) (p : RefreshSessionModel → Bool)
    (d : RSUpdateData) : Except ServiceError (RefreshSessionModel × State) :=
  match (st.sessions.filter p).map (applyRSUpdate d) with
  | [row] =>
      .ok (row, { st with
        sessions := st.sessions.map (fun r => if p r then applyRSUpdate d r else r) })
  | [] => .error .noResult
  | _ :: _ :: _ => .error .multipleResults

/-- `RefreshSessionDAO.delete` (src/src/dao.py lines 71-74): DELETE every
row matching the predicate; never an error, zero matches included. -/
def RefreshSessionDAO_delete (st : State) (p : RefreshSessionModel → Bool) : State :=
  { st with sessions := st.sessions.filter (fun r => !(p r)) }

/-- `AuthService._create_access_token` (src/src/users/service.py lines
91-99): the signed JWT over `{sub: user_id, exp: now + lifetime}` is the
opaque `enc user_id`; the method returns the f-string
`f'Bearer \x7bencoded_jwt\x7d'`. -/
def create_access_token (enc : Nat → String) (user_id : Nat) : String :=
  "Bearer " ++ enc user_id

/-- `AuthService.create_token` (src/src/users/service.py lines 18-35):
build the access token, compute the refresh lifetime in seconds, insert a
new `refresh_session` row, commit, and return the token triple.
`freshRefresh` is the `uuid.uuid4()` value of `_create_refresh_token`. -/
def create_token (cfg : Config) (enc : Nat → String) (freshRefresh : Nat)
    (now : Nat) (st : State) (user_id : Nat) : Token × State :=
  let access := create_access_token enc user_id
  let (_, st') := RefreshSessionDAO_add st now
    { user_id := user_id, refresh_token := freshRefresh,
      expires_in := refreshSeconds cfg }
  ({ access_token := access, refresh_token := freshRefresh,
     token_type := "bearer" }, st')

/-- The values read by `AuthService.refresh_token` before it writes:
the looked-up session row and its owning user. -/
structure RotateRead where
  rs : RefreshSessionModel
  u : UserModel
deriving DecidableEq, Repr

/-- Read phase of `AuthService.refresh_token` (src/src/users/service.py
lines 47-58): look up the row by refresh-token value; on the expired
branch the source calls `RefreshSessionDAO.delete(id=refresh_session.id)`
WITHOUT the required `session` argument, so Python raises `TypeError`
before `TokenExpiredException` is reached and before any row is deleted;
otherwise look up the owning user. -/
def rotate_read (st : State) (now : Nat) (token : Nat) :
    Except ServiceError RotateRead :=
  match findOneOrNone st.sessions (fun r => r.refresh_token == token) with
  | .error e => .error e
  | .ok none => .error .invalidToken
  | .ok (some rs) =>
    if now ≥ rs.created_at + rs.expires_in then
      .error .typeError
    else
      match findOneOrNone st.users (fun x => x.id == rs.user_id) with
      | .error e => .error e
      | .ok none => .error .invalidToken
      | .ok (some u) => .ok ⟨rs, u⟩

/-- Write phase of `AuthService.refresh_token` (src/src/users/service.py
lines 60-74): build the new tokens and UPDATE the row matched by
`RefreshSessionModel.id == refresh_session.id`, setting exactly the
fields supplied to `RefreshSessionUpdate` (refresh_token and expires_in;
user_id is left unset), then commit and return the token triple. -/
def rotate_write (cfg : Config) (enc : Nat → String) (fresh : Nat)
    (r : RotateRead) (st : State) : Except ServiceError (Token × State) :=
  match RefreshSessionDAO_update st (fun s => s.id == r.rs.id)
      { refresh_token := some fresh, expires_in := some (refreshSeconds cfg),
        user_id := none } with
  | .error e => .error e
  | .ok (_, st') =>
      .ok ({ access_token := create_access_token enc r.u.id,
             refresh_token := fresh, token_type := "bearer" }, st')

/-- `AuthService.refresh_token` (src/src/users/service.py lines 45-74):
the read phase followed by the write phase, in one transaction. -/
def refresh_token (cfg : Config) (enc : Nat → String) (fresh : Nat)
    (now : Nat) (st : State) (token : Nat) : Except ServiceError (Token × State) :=
  match rotate_read st now token with
  | .error e => .error e
  | .ok r => rotate_write cfg enc fresh r st

/-- `AuthService.authenticate_user` (src/src/users/service.py lines
76-82): look the user up by email; return it when found and the password
verifies against the stored hash, `None` otherwise.  `verify pw h` is the
opaque `is_valid_password(password, hashed_password)`. -/
def authenticate_user (verify : String → String → Bool) (st : State)
    (email password : String) : Except ServiceError (Option UserModel) :=
  match findOneOrNone st.users (fun u => u.email == email) with
  | .error e => .error e
  | .ok (some db_user) =>
      if verify password db_user.hashed_password then .ok (some db_user)
      else .ok none
  | .ok none => .ok none

/-- `AuthService.abort_all_sessions` (src/src/users/service.py lines
84-88): DELETE every `refresh_session` row with this `user_id`, commit.
The DELETE never fails, zero matched rows included. -/
def abort_all_sessions (st : State) (user_id : Nat) : State :=
  RefreshSessionDAO_delete st (fun s => s.user_id == user_id)

/-- `UserService.get_user` (src/src/users/service.py lines 127-134):
look the user up by id; raise `HTTPException(404, "User not found")`
when absent. -/
def get_user (st : State) (user_id : Nat) : Except ServiceError UserModel :=
  match findOneOrNone st.users (fun x => x.id == user_id) with
  | .error e => .error e
  | .ok none => .error .notFound
  | .ok (some u) => .ok u

/-- The decoded JWT payload: `payload.get("sub")`, already parsed to the
subject user id (`None` when the claim is absent). -/
structure JwtPayload where
  sub : Option Nat
deriving DecidableEq, Repr

/-- `get_current_user` (src/src/users/dependencies.py lines 16-31):
`jwt.decode` failure or a missing `sub` claim inside the `try` block is
`InvalidTokenException`; then `UserService.get_user` runs OUTSIDE the
`try`, so a missing user surfaces as that call's 404 `notFound`, and an
unverified user as 403 `forbidden`.  `decode` is the opaque
`jwt.decode` + `uuid.UUID` parse: `none` models any decode exception. -/
def get_current_user (decode : String → Option JwtPayload) (st : State)
    (token : String) : Except ServiceError UserModel :=
  match decode token with
  | none => .error .invalidToken
  | some payload =>
    match payload.sub with
    | none => .error .invalidToken
    | some user_id =>
      match get_user st user_id with
      | .error e => .error e
      | .ok u => if !u.is_verified then .error .forbidden else .ok u

/-- `UserUpdate` (src/src/users/schemas.py lines 21-22): the inbound
partial-update request.  A field is `some v` exactly when the client
supplied it (pydantic tracks this as the model's set of set fields, which
is what `model_dump(exclude_unset=True)` keeps). -/
structure UserUpdate where
  email : Option String
  fio : Option String
  is_active : Option Bool
  is_verified : Option Bool
  is_superuser : Option Bool
  password : Option String
deriving DecidableEq, Repr

/-- Python truthiness of `user.password`: `None` and the empty string are
falsy. -/
def passwordTruthy (p : Option String) : Bool :=
  match p with
  | none => false
  | some s => s ≠ ""

/-- The dictionary produced by `UserUpdateDB.model_dump(exclude_unset=True)`
inside `BaseDAO.update`: a field is `some v` exactly when it was supplied
to the `UserUpdateDB` constructor. -/
structure UserUpdateData where
  email : Option String
  fio : Option String
  is_active : Option Bool
  is_verified : Option Bool
  is_superuser : Option Bool
  hashed_password : Option String
deriving DecidableEq, Repr

/-- Constructing a `UserUpdateDB` (src/src/users/schemas.py lines 41-42)
from keyword arguments.  `hashed_password : str` has no default, so a
call that does not supply it raises pydantic `ValidationError`; the
fields that were supplied become the model's set fields and hence the
UPDATE dictionary. -/
def mkUserUpdateDB (email fio : Option String) (ia iv isu : Option Bool)
    (hp : Option String) : Except ServiceError UserUpdateData :=
  match hp with
  | none => .error .validationError
  | some h =>
      .ok { email := email, fio := fio, is_active := ia, is_verified := iv,
            is_superuser := isu, hashed_password := some h }

/-- Applying an UPDATE ... SET dict to one `user` row: only the columns
present in the dict change. -/
def applyUserUpdate (d : UserUpdateData) (u : UserModel) : UserModel :=
  { u with
    email := d.email.getD u.email,
    fio := d.fio.getD u.fio,
    is_active := d.is_active.getD u.is_active,
    is_verified := d.is_verified.getD u.is_verified,
    is_superuser := d.is_superuser.getD u.is_superuser,
    hashed_password := d.hashed_password.getD u.hashed_password }

/-- `UserDAO.update` (src/src/dao.py lines 76-97 instantiated at
`UserModel`): UPDATE every row matching the predicate, RETURNING the
updated rows, then `.scalars().one()`. -/
def UserDAO_update (st : State) (p : UserModel → Bool) (d : UserUpdateData) :
    Except ServiceError (UserModel × State) :=
  match (st.users.filter p).map (applyUserUpdate d) with
  | [row] =>
      .ok (row, { st with
        users := st.users.map (fun u => if p u then applyUserUpdate d u else u) })
  | [] => .error .noResult
  | _ :: _ :: _ => .error .multipleResults

/-- `UserService.update_user` (src/src/users/service.py lines 136-161):
look the user up by id (404 when absent); when a password was supplied,
build `UserUpdateDB` from
`user.model_dump(exclude=\x7bis_active, is_verified, is_superuser\x7d, exclude_unset=True)`
plus `hashed_password=get_password_hash(user.password)`; otherwise build
`UserUpdateDB(**user.model_dump())` — a dump that contains every
`UserUpdate` field (with defaults filled in) but NOT `hashed_password`,
so the constructor call fails pydantic validation.  Finally UPDATE the
row matched by `UserModel.id == user_id` and commit.  `hash` is the
opaque `get_password_hash`. -/
def update_user (hash : String → String) (st : State) (user_id : Nat)
    (u : UserUpdate) : Except ServiceError (UserModel × State) :=
  match findOneOrNone st.users (fun x => x.id == user_id) with
  | .error e => .error e
  | .ok none => .error .notFound
  | .ok (some _) =>
    let user_in :=
      if passwordTruthy u.password then
        mkUserUpdateDB u.email u.fio none none none
          (some (hash (u.password.getD "")))
      else
        -- the dumped kwargs carry every UserUpdate field (defaults filled
        -- in for unset ones) but no hashed_password value at all
        mkUserUpdateDB (some (u.email.getD "")) (some (u.fio.getD ""))
          (some (u.is_active.getD true)) (some (u.is_verified.getD false))
          (some (u.is_superuser.getD false)) none
    match user_in with
    | .error e => .error e
    | .ok d => UserDAO_update st (fun x => x.id == user_id) d

/-- Concrete configuration with the default lifetimes
(src/src/config.py lines 34-35). -/
def cfg30 : Config := ⟨30, 15⟩

/-- A concrete opaque JWT encoder for witnesses. -/
def encJ : Nat → String := fun n => "jwt" ++ toString n

/-- A concrete opaque password hash for witnesses. -/
def hashF : String → String := fun s => "hash:" ++ s

/-- A concrete opaque password verifier matching `hashF` for witnesses. -/
def verifyF : String → String → Bool := fun pw h => h == "hash:" ++ pw

theorem findOneOrNone_eq_none {α : Type} {l : List α} {p : α → Bool}
    (h : l.filter p = []) : findOneOrNone l p = .ok none := by
  unfold findOneOrNone; rw [h]

theorem findOneOrNone_eq_some {α : Type} {l : List α} {p : α → Bool} {a : α}
    (h : l.filter p = [a]) : findOneOrNone l p = .ok (some a) := by
  unfold findOneOrNone; rw [h]

theorem RefreshSessionDAO_update_single {st : State} {p : RefreshSessionModel → Bool}
    {d : RSUpdateData} {rs : RefreshSessionModel} (h : st.sessions.filter p = [rs]) :
    RefreshSessionDAO_update st p d =
      .ok (applyRSUpdate d rs,
        { st with sessions := st.sessions.map (fun r => if p r then applyRSUpdate d r else r) }) := by
  unfold RefreshSessionDAO_update; rw [h]; rfl

/-- Claim C1: the claim says an expired row makes `refresh_token` fail with
`TokenExpired` and removes the row.  The code instead raises a Python
`TypeError`: the expired branch calls `RefreshSessionDAO.delete(id=...)`
without the required `session` argument, so neither the deletion nor the
`TokenExpiredException` is reached (and the transaction, never committed,
is rolled back).  Concretely: a row with `created_at = 0`,
`expires_in = 100`, rotated at `now = 100`, errors with `typeError`, and
a retry at a later time still errors with `typeError`, never
`InvalidToken`. -/
theorem c1_expired_rotate_raises_type_error :
    refresh_token cfg30 encJ 7 100 ⟨[⟨1, "a@x.com", "h", "A", true, true, false⟩],
      [⟨1, 5, 100, 0, 1⟩], 2⟩ 5 = .error .typeError ∧
    refresh_token cfg30 encJ 8 200 ⟨[⟨1, "a@x.com", "h", "A", true, true, false⟩],
      [⟨1, 5, 100, 0, 1⟩], 2⟩ 5 = .error .typeError ∧
    ServiceError.typeError ≠ ServiceError.tokenExpired ∧
    ServiceError.typeError ≠ ServiceError.invalidToken := by
  refine ⟨rfl, rfl, by decide, by decide⟩

/-- Claim C2, counterexample: the claim quantifies over every user id, but
for a user id absent from the `user` table, `create_token` still inserts a
session row and returns a refresh token (`BaseDAO.add` swallows write
errors), and the FIRST `refresh_token` call with that token then fails
with `InvalidToken` at the defensive owning-user lookup — it does not
succeed as claimed. -/
theorem c2_counterexample :
    (create_token cfg30 encJ 5 0 ⟨[], [], 1⟩ 99).1.refresh_token = 5 ∧
    refresh_token cfg30 encJ 6 0 (create_token cfg30 encJ 5 0 ⟨[], [], 1⟩ 99).2 5
      = .error .invalidToken := by
  exact ⟨rfl, rfl⟩

/-- Claim C2 (amended): for every user id that belongs to a user present in
the user table, after `create_token` returns a refresh token, a first
sequential `refresh_token` call with that token — before the refresh
window has elapsed, with a collision-free fresh token supply — succeeds
and returns a new token pair, and a second sequential call with the same
now-stale token fails with `InvalidToken`. -/
theorem c2_issue_then_rotate
    (cfg : Config) (enc1 enc2 : Nat → String) (f1 f2 t1 t2 uid : Nat)
    (st : State) (u : UserModel)
    (hu : st.users.filter (fun x => x.id == uid) = [u])
    (hfresh : ∀ s ∈ st.sessions, s.refresh_token ≠ f1)
    (hids : ∀ s ∈ st.sessions, s.id ≠ st.nextSessionId)
    (hf12 : f2 ≠ f1)
    (ht : t2 < t1 + refreshSeconds cfg) :
    ∃ tok2 st2,
      (create_token cfg enc1 f1 t1 st uid).1.refresh_token = f1 ∧
      refresh_token cfg enc2 f2 t2 (create_token cfg enc1 f1 t1 st uid).2 f1
        = .ok (tok2, st2) ∧
      tok2.refresh_token = f2 ∧
      ∀ (enc3 : Nat → String) (f3 t3 : Nat),
        refresh_token cfg enc3 f3 t3 st2 f1 = .error .invalidToken := by
  -- the row inserted by create_token, the rotation UPDATE dict,
  -- and the two post-states
  let row : RefreshSessionModel :=
    ⟨st.nextSessionId, f1, refreshSeconds cfg, t1, uid⟩
  let d : RSUpdateData := ⟨some f2, some (refreshSeconds cfg), none⟩
  let st1 : State :=
    { st with sessions := st.sessions ++ [row],
              nextSessionId := st.nextSessionId + 1 }
  let st2 : State :=
    { st1 with sessions :=
        st1.sessions.map (fun r => if r.id == row.id then applyRSUpdate d r else r) }
  have hst1 : (create_token cfg enc1 f1 t1 st uid).2 = st1 := rfl
  -- no pre-existing row carries the fresh token f1
  have hfil0 : st.sessions.filter (fun r => r.refresh_token == f1) = [] :=
    List.filter_eq_nil_iff.mpr (fun s hs => by simpa using hfresh s hs)
  have hfil1 : st1.sessions.filter (fun r => r.refresh_token == f1) = [row] := by
    show (st.sessions ++ [row]).filter (fun r => r.refresh_token == f1) = [row]
    rw [List.filter_append, hfil0]
    simp [row]
  -- the read phase of the first rotation
  have hread : rotate_read st1 t2 f1 = .ok ⟨row, u⟩ := by
    unfold rotate_read
    rw [findOneOrNone_eq_some hfil1]
    dsimp only
    rw [if_neg (Nat.not_le.mpr ht)]
    have hu1 : st1.users.filter (fun x => x.id == uid) = [u] := hu
    rw [findOneOrNone_eq_some hu1]
  -- the write phase: exactly the freshly inserted row matches by id
  have hfilid : st1.sessions.filter (fun s => s.id == row.id) = [row] := by
    show (st.sessions ++ [row]).filter (fun s => s.id == row.id) = [row]
    rw [List.filter_append,
      List.filter_eq_nil_iff.mpr (fun s hs => by simpa using hids s hs)]
    simp
  have hwrite : rotate_write cfg enc2 f2 ⟨row, u⟩ st1 =
      .ok (⟨create_access_token enc2 u.id, f2, "bearer"⟩, st2) := by
    unfold rotate_write
    rw [RefreshSessionDAO_update_single hfilid]
  -- after the rotation no row carries the stale token f1 any more
  have hfil2 : st2.sessions.filter (fun r => r.refresh_token == f1) = [] := by
    refine List.filter_eq_nil_iff.mpr ?_
    intro x hx
    obtain ⟨r, hr, hrx⟩ := List.mem_map.mp hx
    rcases List.mem_append.mp hr with hmem | hsingle
    · have hne : (r.id == row.id) = false := by
        simpa using hids r hmem
      rw [hne] at hrx
      simp at hrx
      subst hrx
      simpa using hfresh r hmem
    · have hrw : r = row := by simpa using hsingle
      subst hrw
      simp at hrx
      subst hrx
      simpa [applyRSUpdate] using hf12
  have hsecond : ∀ (enc3 : Nat → String) (f3 t3 : Nat),
      refresh_token cfg enc3 f3 t3 st2 f1 = .error .invalidToken := by
    intro enc3 f3 t3
    unfold refresh_token rotate_read
    rw [findOneOrNone_eq_none hfil2]
  refine ⟨⟨create_access_token enc2 u.id, f2, "bearer"⟩, st2, rfl, ?_, rfl, hsecond⟩
  rw [hst1]
  unfold refresh_token
  rw [hread]
  dsimp only
  exact hwrite

theorem findOneOrNone_two {α : Type} {l : List α} {p : α → Bool} {a b : α}
    {t : List α} (h : l.filter p = a :: b :: t) :
    findOneOrNone l p = .error .multipleResults := by
  unfold findOneOrNone; rw [h]

/-- Witness for C2 (amended) at a concrete store: one user with id 1, no
sessions, issue at time 0, rotate at time 1 with fresh token 6. -/
theorem c2_issue_then_rotate_witness :
    ∃ tok2 st2,
      refresh_token cfg30 encJ 6 1
        (create_token cfg30 encJ 5 0
          ⟨[⟨1, "a@x.com", "hash:pw", "A", true, true, false⟩], [], 1⟩ 1).2 5
        = .ok (tok2, st2) ∧
      ∀ (enc3 : Nat → String) (f3 t3 : Nat),
        refresh_token cfg30 enc3 f3 t3 st2 5 = .error .invalidToken := by
  obtain ⟨tok2, st2, -, h2, -, h4⟩ :=
    c2_issue_then_rotate cfg30 encJ encJ 5 6 0 1 1
      ⟨[⟨1, "a@x.com", "hash:pw", "A", true, true, false⟩], [], 1⟩
      ⟨1, "a@x.com", "hash:pw", "A", true, true, false⟩
      rfl (by simp) (by simp) (by decide) (by decide)
  exact ⟨tok2, st2, h2, h4⟩

/-- Claim C3: the rotation sequence is plain read-then-check-then-update
keyed on the row id, with no conditional on the old token value, so under
the interleaving read-A, read-B, write-A, write-B two concurrent
`refresh_token` calls presenting the identical refresh token BOTH return
a new token pair — the claim's "at most one succeeds" fails.  The first
conjunct certifies that `rotate_read` / `rotate_write` are exactly the
code's read and write phases. -/
theorem c3_double_rotate_both_succeed :
    (∀ (cfg : Config) (enc : Nat → String) (f now tok : Nat) (st : State),
        refresh_token cfg enc f now st tok =
          match rotate_read st now tok with
          | .error e => .error e
          | .ok r => rotate_write cfg enc f r st) ∧
    ∃ tokA st1 tokB st2,
      rotate_read ⟨[⟨1, "a@x.com", "hash:pw", "A", true, true, false⟩],
          [⟨1, 10, 2592000, 0, 1⟩], 2⟩ 0 10
        = .ok ⟨⟨1, 10, 2592000, 0, 1⟩,
               ⟨1, "a@x.com", "hash:pw", "A", true, true, false⟩⟩ ∧
      rotate_write cfg30 encJ 11
        ⟨⟨1, 10, 2592000, 0, 1⟩, ⟨1, "a@x.com", "hash:pw", "A", true, true, false⟩⟩
        ⟨[⟨1, "a@x.com", "hash:pw", "A", true, true, false⟩],
         [⟨1, 10, 2592000, 0, 1⟩], 2⟩
        = .ok (tokA, st1) ∧
      rotate_write cfg30 encJ 12
        ⟨⟨1, 10, 2592000, 0, 1⟩, ⟨1, "a@x.com", "hash:pw", "A", true, true, false⟩⟩
        st1
        = .ok (tokB, st2) ∧
      st2.sessions.length = 1 := by
  refine ⟨fun cfg enc f now tok st => rfl,
    ⟨create_access_token encJ 1, 11, "bearer"⟩,
    ⟨[⟨1, "a@x.com", "hash:pw", "A", true, true, false⟩],
     [⟨1, 11, refreshSeconds cfg30, 0, 1⟩], 2⟩,
    ⟨create_access_token encJ 1, 12, "bearer"⟩,
    ⟨[⟨1, "a@x.com", "hash:pw", "A", true, true, false⟩],
     [⟨1, 12, refreshSeconds cfg30, 0, 1⟩], 2⟩,
    rfl, rfl, rfl, rfl⟩

/-- Claim C4: a successful rotation updates exactly the `refresh_token`
and `expires_in` columns of the matched row (the UPDATE dict built from
`RefreshSessionUpdate(refresh_token=..., expires_in=...)` with
`exclude_unset=True` contains nothing else), leaving `id`, `created_at`
and `user_id` of that row — and every other row, and the user table —
unchanged. -/
theorem c4_rotate_frame
    (cfg : Config) (enc : Nat → String) (fresh now tok : Nat)
    (st : State) (rs : RefreshSessionModel) (u : UserModel)
    (hfind : st.sessions.filter (fun r => r.refresh_token == tok) = [rs])
    (hexp : now < rs.created_at + rs.expires_in)
    (huser : st.users.filter (fun x => x.id == rs.user_id) = [u])
    (hid : st.sessions.filter (fun r => r.id == rs.id) = [rs]) :
    ∃ t st',
      refresh_token cfg enc fresh now st tok = .ok (t, st') ∧
      st'.users = st.users ∧
      st'.nextSessionId = st.nextSessionId ∧
      st'.sessions = st.sessions.map
        (fun r => if r.id == rs.id then
            { r with refresh_token := fresh, expires_in := refreshSeconds cfg }
          else r) ∧
      ∀ r ∈ st.sessions, r.id ≠ rs.id → r ∈ st'.sessions := by
  have hrun : refresh_token cfg enc fresh now st tok =
      .ok (⟨create_access_token enc u.id, fresh, "bearer"⟩,
        { st with sessions := st.sessions.map fun r =>
            if r.id == rs.id then
              applyRSUpdate ⟨some fresh, some (refreshSeconds cfg), none⟩ r
            else r }) := by
    unfold refresh_token rotate_read
    rw [findOneOrNone_eq_some hfind]
    dsimp only
    rw [if_neg (Nat.not_le.mpr hexp)]
    rw [findOneOrNone_eq_some huser]
    dsimp only
    unfold rotate_write
    rw [RefreshSessionDAO_update_single hid]
  refine ⟨_, _, hrun, rfl, rfl, rfl, ?_⟩
  intro r hr hne
  have hb : (r.id == rs.id) = false := beq_eq_false_iff_ne.mpr hne
  refine List.mem_map.mpr ⟨r, hr, ?_⟩
  simp [hb]

/-- Witness for C4 at a concrete store: one session row with id 1,
token 10, rotated to fresh token 11 at time 5. -/
theorem c4_rotate_frame_witness :
    ∃ t st',
      refresh_token cfg30 encJ 11 5
        ⟨[⟨1, "a@x.com", "hash:pw", "A", true, true, false⟩],
         [⟨1, 10, 2592000, 0, 1⟩], 2⟩ 10 = .ok (t, st') ∧
      st'.users = [⟨1, "a@x.com", "hash:pw", "A", true, true, false⟩] ∧
      st'.sessions = [⟨1, 11, refreshSeconds cfg30, 0, 1⟩] := by
  obtain ⟨t, st', h1, h2, -, h4, -⟩ :=
    c4_rotate_frame cfg30 encJ 11 5 10
      ⟨[⟨1, "a@x.com", "hash:pw", "A", true, true, false⟩],
       [⟨1, 10, 2592000, 0, 1⟩], 2⟩
      ⟨1, 10, 2592000, 0, 1⟩ ⟨1, "a@x.com", "hash:pw", "A", true, true, false⟩
      rfl (by decide) rfl rfl
  exact ⟨t, st', h1, h2, by rw [h4]; rfl⟩

/-- Claim C5: the claim promises partial-update semantics, but
`UserService.update_user` with an existing user and a request that
supplies a new display name and NO password takes the
`UserUpdateDB(**user.model_dump())` branch, whose kwargs contain no
`hashed_password`; the required-field check fails, so the call raises
pydantic `ValidationError` instead of applying the supplied field. -/
theorem c5_update_without_password_fails :
    update_user hashF
      ⟨[⟨1, "a@x.com", "hash:old", "Old Name", true, true, false⟩], [], 1⟩ 1
      ⟨none, some "New Name", none, none, none, none⟩
      = .error .validationError ∧
    ServiceError.validationError ≠ ServiceError.notFound := by
  exact ⟨rfl, by decide⟩

/-- Claim C6, counterexample: an access token that decodes to subject 42
while no user with id 42 exists makes `get_current_user` fail with the
404 `notFound` of `UserService.get_user` (called outside the `try`
block), not with `InvalidToken` as the claim states. -/
theorem c6_counterexample :
    get_current_user (fun _ => some ⟨some 42⟩) ⟨[], [], 1⟩ "token"
      = .error .notFound ∧
    ServiceError.notFound ≠ ServiceError.invalidToken := by
  exact ⟨rfl, by decide⟩

/-- Claim C6 (amended): whenever the access token decodes successfully to
a subject id that no stored user carries, `get_current_user` fails with
`NotFound` (HTTP 404 "User not found"), not with `InvalidToken`;
`InvalidToken` is raised only for decode failures and missing subjects. -/
theorem c6_missing_user_not_found
    (decode : String → Option JwtPayload) (st : State) (tok : String) (uid : Nat)
    (hdec : decode tok = some ⟨some uid⟩)
    (habs : st.users.filter (fun x => x.id == uid) = []) :
    get_current_user decode st tok = .error .notFound := by
  unfold get_current_user
  rw [hdec]
  dsimp only
  unfold get_user
  rw [findOneOrNone_eq_none habs]

/-- Witness for C6 (amended) at a concrete decoder and empty user table. -/
theorem c6_missing_user_not_found_witness :
    get_current_user (fun _ => some ⟨some 42⟩) ⟨[], [], 1⟩ "tok"
      = .error .notFound :=
  c6_missing_user_not_found (fun _ => some ⟨some 42⟩) ⟨[], [], 1⟩ "tok" 42 rfl rfl

/-- Claim C7: `authenticate_user` returns the stored user exactly when the
email matches a stored row and the secret verifies against its hash; an
unknown email and a known email with a failing secret produce the
LITERALLY SAME outcome (`None`), so the two failure cases are not
distinguishable from the result. -/
theorem c7_authenticate_uniform
    (verify : String → String → Bool) (st : State) (email pw : String) :
    (st.users.filter (fun x => x.email == email) = [] →
      authenticate_user verify st email pw = .ok none) ∧
    (∀ u, st.users.filter (fun x => x.email == email) = [u] →
      (verify pw u.hashed_password = true →
        authenticate_user verify st email pw = .ok (some u)) ∧
      (verify pw u.hashed_password = false →
        authenticate_user verify st email pw = .ok none)) ∧
    (∀ u, authenticate_user verify st email pw = .ok (some u) →
      st.users.filter (fun x => x.email == email) = [u] ∧
      verify pw u.hashed_password = true) := by
  refine ⟨?_, ?_, ?_⟩
  · intro h
    unfold authenticate_user
    rw [findOneOrNone_eq_none h]
  · intro u hu
    constructor
    · intro hv
      unfold authenticate_user
      rw [findOneOrNone_eq_some hu]
      dsimp only
      rw [if_pos hv]
    · intro hv
      unfold authenticate_user
      rw [findOneOrNone_eq_some hu]
      dsimp only
      rw [if_neg (by simp [hv])]
  · intro u h
    unfold authenticate_user at h
    rcases hfil : st.users.filter (fun x => x.email == email) with - | ⟨a, - | ⟨b, t⟩⟩
    · rw [findOneOrNone_eq_none hfil] at h
      simp at h
    · rw [findOneOrNone_eq_some hfil] at h
      dsimp only at h
      by_cases hv : verify pw a.hashed_password = true
      · rw [if_pos hv] at h
        have ha : a = u := by simpa using h
        subst ha
        exact ⟨hfil, hv⟩
      · rw [if_neg hv] at h
        simp at h
    · rw [findOneOrNone_two hfil] at h
      simp at h

/-- Witness for C7 at a concrete store: correct secret returns the user,
wrong secret and unknown email both return the same `None`. -/
theorem c7_authenticate_uniform_witness :
    authenticate_user verifyF
      ⟨[⟨1, "a@x.com", "hash:pw", "A", true, true, false⟩], [], 1⟩
      "a@x.com" "pw"
      = .ok (some ⟨1, "a@x.com", "hash:pw", "A", true, true, false⟩) ∧
    authenticate_user verifyF
      ⟨[⟨1, "a@x.com", "hash:pw", "A", true, true, false⟩], [], 1⟩
      "a@x.com" "wrong" = .ok none ∧
    authenticate_user verifyF
      ⟨[⟨1, "a@x.com", "hash:pw", "A", true, true, false⟩], [], 1⟩
      "b@x.com" "pw" = .ok none := by
  refine ⟨?_, ?_, ?_⟩
  · exact ((c7_authenticate_uniform verifyF
      ⟨[⟨1, "a@x.com", "hash:pw", "A", true, true, false⟩], [], 1⟩
      "a@x.com" "pw").2.1 ⟨1, "a@x.com", "hash:pw", "A", true, true, false⟩ rfl).1 rfl
  · exact ((c7_authenticate_uniform verifyF
      ⟨[⟨1, "a@x.com", "hash:pw", "A", true, true, false⟩], [], 1⟩
      "a@x.com" "wrong").2.1 ⟨1, "a@x.com", "hash:pw", "A", true, true, false⟩ rfl).2 rfl
  · exact (c7_authenticate_uniform verifyF
      ⟨[⟨1, "a@x.com", "hash:pw", "A", true, true, false⟩], [], 1⟩
      "b@x.com" "pw").1 rfl

/-- Claim C8: `abort_all_sessions` keeps exactly the sessions of other
users (a row survives iff it was there before and belongs to a different
user), never touches the user table, and is a no-op — not an error — when
the user owns no session. -/
theorem c8_abort_all_frame (st : State) (uid : Nat) :
    (abort_all_sessions st uid).users = st.users ∧
    (∀ s, s ∈ (abort_all_sessions st uid).sessions ↔
      (s ∈ st.sessions ∧ s.user_id ≠ uid)) ∧
    ((∀ s ∈ st.sessions, s.user_id ≠ uid) → abort_all_sessions st uid = st) := by
  refine ⟨rfl, ?_, ?_⟩
  · intro s
    simp [abort_all_sessions, RefreshSessionDAO_delete, List.mem_filter]
  · intro h
    unfold abort_all_sessions RefreshSessionDAO_delete
    have hkeep : st.sessions.filter (fun r => !(r.user_id == uid)) = st.sessions := by
      refine List.filter_eq_self.mpr ?_
      intro s hs
      simpa using h s hs
    rw [hkeep]

/-- Witness for C8 at a concrete store with sessions of users 1 and 2:
revoking user 1 keeps exactly user 2's session, and revoking the
session-less user 3 is an identity. -/
theorem c8_abort_all_frame_witness :
    (⟨2, 20, 100, 0, 2⟩ : RefreshSessionModel) ∈
      (abort_all_sessions ⟨[], [⟨1, 10, 100, 0, 1⟩, ⟨2, 20, 100, 0, 2⟩], 3⟩ 1).sessions ∧
    ¬ ((⟨1, 10, 100, 0, 1⟩ : RefreshSessionModel) ∈
      (abort_all_sessions ⟨[], [⟨1, 10, 100, 0, 1⟩, ⟨2, 20, 100, 0, 2⟩], 3⟩ 1).sessions) ∧
    abort_all_sessions ⟨[], [⟨1, 10, 100, 0, 1⟩, ⟨2, 20, 100, 0, 2⟩], 3⟩ 3
      = ⟨[], [⟨1, 10, 100, 0, 1⟩, ⟨2, 20, 100, 0, 2⟩], 3⟩ := by
  refine ⟨?_, ?_, ?_⟩
  · exact ((c8_abort_all_frame ⟨[], [⟨1, 10, 100, 0, 1⟩, ⟨2, 20, 100, 0, 2⟩], 3⟩ 1).2.1
      ⟨2, 20, 100, 0, 2⟩).mpr ⟨by simp, by decide⟩
  · intro hmem
    have := ((c8_abort_all_frame ⟨[], [⟨1, 10, 100, 0, 1⟩, ⟨2, 20, 100, 0, 2⟩], 3⟩ 1).2.1
      ⟨1, 10, 100, 0, 1⟩).mp hmem
    exact this.2 rfl
  · exact (c8_abort_all_frame ⟨[], [⟨1, 10, 100, 0, 1⟩, ⟨2, 20, 100, 0, 2⟩], 3⟩ 3).2.2
      (by decide)

/-- Claim C9: `authenticate_user` never reads `is_active`: a stored user
whose `is_active` flag is false (soft-deleted) still authenticates with
the correct secret and is returned, so tokens can again be issued for it. -/
theorem c9_inactive_user_authenticates
    (verify : String → String → Bool) (st : State) (email pw : String) (u : UserModel)
    (hfil : st.users.filter (fun x => x.email == email) = [u])
    (hinactive : u.is_active = false)
    (hv : verify pw u.hashed_password = true) :
    authenticate_user verify st email pw = .ok (some u) := by
  unfold authenticate_user
  rw [findOneOrNone_eq_some hfil]
  dsimp only
  rw [if_pos hv]

/-- Witness for C9: a soft-deleted user (is_active = false) with the
correct secret is still returned. -/
theorem c9_inactive_user_authenticates_witness :
    authenticate_user verifyF
      ⟨[⟨1, "a@x.com", "hash:pw", "A", false, true, false⟩], [], 1⟩
      "a@x.com" "pw"
      = .ok (some ⟨1, "a@x.com", "hash:pw", "A", false, true, false⟩) :=
  c9_inactive_user_authenticates verifyF
    ⟨[⟨1, "a@x.com", "hash:pw", "A", false, true, false⟩], [], 1⟩
    "a@x.com" "pw" ⟨1, "a@x.com", "hash:pw", "A", false, true, false⟩
    rfl rfl rfl

/-- Claim C10: every outbound access-token string is the literal
"Bearer " followed by the signed JWT — both the one `create_token`
returns and the one inside any successful `refresh_token` result — so
the `Token.access_token` field is never a bare signed token. -/
theorem c10_access_token_bearer :
    (∀ (enc : Nat → String) (uid : Nat),
      create_access_token enc uid = "Bearer " ++ enc uid) ∧
    (∀ (cfg : Config) (enc : Nat → String) (f now uid : Nat) (st : State),
      (create_token cfg enc f now st uid).1.access_token = "Bearer " ++ enc uid) ∧
    (∀ (cfg : Config) (enc : Nat → String) (f now tok : Nat) (st : State)
        (t : Token) (st' : State),
      refresh_token cfg enc f now st tok = .ok (t, st') →
      ∃ uid, t.access_token = "Bearer " ++ enc uid) := by
  refine ⟨fun enc uid => rfl, fun cfg enc f now uid st => rfl, ?_⟩
  intro cfg enc f now tok st t st' h
  unfold refresh_token at h
  cases hr : rotate_read st now tok with
  | error e => rw [hr] at h; exact absurd h (by simp)
  | ok r =>
    rw [hr] at h
    dsimp only at h
    unfold rotate_write at h
    cases hup : RefreshSessionDAO_update st (fun s => s.id == r.rs.id)
        ⟨some f, some (refreshSeconds cfg), none⟩ with
    | error e => rw [hup] at h; exact absurd h (by simp)
    | ok pr =>
      obtain ⟨row, st2⟩ := pr
      rw [hup] at h
      dsimp only at h
      simp only [Except.ok.injEq, Prod.mk.injEq] at h
      refine ⟨r.u.id, ?_⟩
      rw [← h.1]
      rfl

/-- Witness for C10: a concrete successful rotation whose access token is
"Bearer " followed by the encoder output. -/
theorem c10_access_token_bearer_witness :
    ∃ uid, (Token.mk (create_access_token encJ 1) 11 "bearer").access_token
      = "Bearer " ++ encJ uid :=
  c10_access_token_bearer.2.2 cfg30 encJ 11 0 10
    ⟨[⟨1, "a@x.com", "hash:pw", "A", true, true, false⟩], [⟨1, 10, 2592000, 0, 1⟩], 2⟩
    ⟨create_access_token encJ 1, 11, "bearer"⟩
    ⟨[⟨1, "a@x.com", "hash:pw", "A", true, true, false⟩],
     [⟨1, 11, refreshSeconds cfg30, 0, 1⟩], 2⟩
    rfl
